import Mathlib

/-!
# RT5671 voice-DSP register protocol (`rt5671-dsp.c`)

A shallow embedding of the DSP access routines of the RT5671 codec driver:
`rt5671_dsp_done`, `rt5671_dsp_write`, `rt5671_dsp_read`,
`rt5671_dsp_set_mode` and `rt5671_dsp_show`.

* The codec behind `snd_soc_read` / `snd_soc_write` is an arbitrary
  deterministic machine over a state type `σ`; every register access is
  appended to a chronological trace so that ordering properties can be stated.
* `unsigned int` is a `Nat` reduced modulo `2^32`, `int` is an `Int` wrapped
  into `[-2^31, 2^31)`.
* The macros of `rt5671.h` / `rt5671-dsp.h` (register numbers, command bits,
  `RT5671_DSP_REG_DISP_LEN`, the mode enumeration) and the kernel constants
  `PAGE_SIZE` and `EBUSY` are not part of the sources at hand; they are the
  fields of `Consts`.
-/

namespace RT5671

/-! ## Machine integers -/

/-- Conversion of an integer to `int` (two's complement, 32 bit). -/
def toInt32 (n : Int) : Int := (n + 2147483648) % 4294967296 - 2147483648

/-- Conversion of an integer to `unsigned int` (32 bit). -/
def toUInt32 (n : Int) : Nat := (n % 4294967296).toNat

/-! ## Constants taken from the missing headers -/

/-- Macros used by `rt5671-dsp.c` whose definitions live in `rt5671.h`,
`rt5671-dsp.h` and the kernel headers. -/
structure Consts where
  RT5671_DSP_CTRL1 : Nat
  RT5671_DSP_CTRL2 : Nat
  RT5671_DSP_CTRL3 : Nat
  RT5671_DSP_CTRL5 : Nat
  RT5671_DSP_BUSY_MASK : Nat
  RT5671_DSP_RW_MASK : Nat
  RT5671_DSP_I2C_AL_16 : Nat
  RT5671_DSP_DL_0 : Nat
  RT5671_DSP_DL_1 : Nat
  RT5671_DSP_DL_2 : Nat
  RT5671_DSP_CMD_MW : Nat
  RT5671_DSP_CMD_MR : Nat
  RT5671_DSP_CMD_RR : Nat
  RT5671_DSP_CLK_96K : Nat
  RT5671_DSP_CMD_EN : Nat
  RT5671_DSP_REG_DISP_LEN : Nat
  RT5671_DSP_DIS : Int
  RT5671_DSP_NS : Int
  PAGE_SIZE : Nat
  EBUSY : Nat

/-- Macro `DSP_CLK_RATE`, defined as `RT5671_DSP_CLK_96K`. -/
def DSP_CLK_RATE (k : Consts) : Nat := k.RT5671_DSP_CLK_96K

/-! ## The codec and its register bus -/

/-- One register access on the codec bus, with what the bus answered. -/
inductive Access where
  | rd (reg val : Nat)
  | wr (reg val : Nat) (ret : Int)
  deriving DecidableEq, Repr

/-- The device behind `snd_soc_read` / `snd_soc_write`: a deterministic
machine over an arbitrary state. `read` yields the register value, `write`
yields the status code of the bus transfer. -/
structure Codec (σ : Type) where
  read : σ → Nat → Nat × σ
  write : σ → Nat → Nat → Int × σ

/-- Device state together with the chronological list of accesses made. -/
structure World (σ : Type) where
  st : σ
  trace : List Access

/-- Kernel routine `unsigned int snd_soc_read(codec, reg)`: one bus read, logged. -/
def snd_soc_read {σ : Type} (c : Codec σ) (w : World σ) (reg : Nat) : Nat × World σ :=
  let r := c.read w.st reg
  let v := r.1 % 4294967296
  (v, ⟨r.2, w.trace ++ [Access.rd reg v]⟩)

/-- Kernel routine `int snd_soc_write(codec, reg, val)`: one bus write, logged. -/
def snd_soc_write {σ : Type} (c : Codec σ) (w : World σ) (reg val : Nat) : Int × World σ :=
  let r := c.write w.st reg val
  let ret := toInt32 r.1
  (ret, ⟨r.2, w.trace ++ [Access.wr reg val ret]⟩)

/-! ## `rt5671_dsp_done` -/

/-- The `while (dsp_val & RT5671_DSP_BUSY_MASK)` loop of `rt5671_dsp_done`,
entered with the current `count` and `dsp_val`. One unit of fuel is used per
evaluation of the loop condition; `none` means the fuel ran out. -/
def rt5671_dsp_done_loop {σ : Type} (k : Consts) (c : Codec σ) :
    Nat → Nat → Nat → World σ → Option (Int × World σ)
  | 0, _, _, _ => none
  | fuel + 1, count, dsp_val, w =>
    if dsp_val &&& k.RT5671_DSP_BUSY_MASK ≠ 0 then
      if count > 10 then
        some (-(k.EBUSY : Int), w)
      else
        let r := snd_soc_read c w k.RT5671_DSP_CTRL1
        rt5671_dsp_done_loop k c fuel (count + 1) r.1 r.2
    else
      some (0, w)

/-- Function `static int rt5671_dsp_done(struct snd_soc_codec *codec)`. -/
def rt5671_dsp_done {σ : Type} (k : Consts) (c : Codec σ) (fuel : Nat) (w : World σ) :
    Option (Int × World σ) :=
  let r := snd_soc_read c w k.RT5671_DSP_CTRL1
  rt5671_dsp_done_loop k c fuel 0 r.1 r.2

/-! ## `rt5671_dsp_write` -/

/-- Function `int rt5671_dsp_write(codec, addr, data)`. -/
def rt5671_dsp_write {σ : Type} (k : Consts) (c : Codec σ) (fuel : Nat)
    (addr data : Nat) (w : World σ) : Option (Int × World σ) :=
  let r1 := snd_soc_write c w k.RT5671_DSP_CTRL2 addr
  if r1.1 < 0 then some (r1.1, r1.2) else
  let r2 := snd_soc_write c r1.2 k.RT5671_DSP_CTRL3 data
  if r2.1 < 0 then some (r2.1, r2.2) else
  let dsp_val := k.RT5671_DSP_I2C_AL_16 ||| k.RT5671_DSP_DL_2 |||
    k.RT5671_DSP_CMD_MW ||| DSP_CLK_RATE k ||| k.RT5671_DSP_CMD_EN
  let r3 := snd_soc_write c r2.2 k.RT5671_DSP_CTRL1 dsp_val
  if r3.1 < 0 then some (r3.1, r3.2) else
  (rt5671_dsp_done k c fuel r3.2).bind fun r4 =>
  if r4.1 < 0 then some (r4.1, r4.2) else some (0, r4.2)

/-! ## `rt5671_dsp_read` -/

/-- Function `unsigned int rt5671_dsp_read(codec, reg)`. The local `ret` is an `int`;
the function result is an `unsigned int`, so `return ret` converts. -/
def rt5671_dsp_read {σ : Type} (k : Consts) (c : Codec σ) (fuel : Nat)
    (reg : Nat) (w : World σ) : Option (Nat × World σ) :=
  (rt5671_dsp_done k c fuel w).bind fun d1 =>
  if d1.1 < 0 then some (toUInt32 d1.1, d1.2) else
  let a1 := snd_soc_write c d1.2 k.RT5671_DSP_CTRL2 reg
  if a1.1 < 0 then some (toUInt32 a1.1, a1.2) else
  let dsp_val1 := k.RT5671_DSP_I2C_AL_16 ||| k.RT5671_DSP_DL_0 ||| k.RT5671_DSP_RW_MASK |||
    k.RT5671_DSP_CMD_MR ||| DSP_CLK_RATE k ||| k.RT5671_DSP_CMD_EN
  let c1 := snd_soc_write c a1.2 k.RT5671_DSP_CTRL1 dsp_val1
  if c1.1 < 0 then some (toUInt32 c1.1, c1.2) else
  (rt5671_dsp_done k c fuel c1.2).bind fun d2 =>
  if d2.1 < 0 then some (toUInt32 d2.1, d2.2) else
  let a2 := snd_soc_write c d2.2 k.RT5671_DSP_CTRL2 0x26
  if a2.1 < 0 then some (toUInt32 a2.1, a2.2) else
  let dsp_val2 := k.RT5671_DSP_DL_1 ||| k.RT5671_DSP_CMD_RR ||| k.RT5671_DSP_RW_MASK |||
    DSP_CLK_RATE k ||| k.RT5671_DSP_CMD_EN
  let c2 := snd_soc_write c a2.2 k.RT5671_DSP_CTRL1 dsp_val2
  if c2.1 < 0 then some (toUInt32 c2.1, c2.2) else
  (rt5671_dsp_done k c fuel c2.2).bind fun d3 =>
  if d3.1 < 0 then some (toUInt32 d3.1, d3.2) else
  let a3 := snd_soc_write c d3.2 k.RT5671_DSP_CTRL2 0x25
  if a3.1 < 0 then some (toUInt32 a3.1, a3.2) else
  let dsp_val3 := k.RT5671_DSP_DL_1 ||| k.RT5671_DSP_CMD_RR ||| k.RT5671_DSP_RW_MASK |||
    DSP_CLK_RATE k ||| k.RT5671_DSP_CMD_EN
  let c3 := snd_soc_write c a3.2 k.RT5671_DSP_CTRL1 dsp_val3
  if c3.1 < 0 then some (toUInt32 c3.1, c3.2) else
  (rt5671_dsp_done k c fuel c3.2).bind fun d4 =>
  if d4.1 < 0 then some (toUInt32 d4.1, d4.2) else
  let rr := snd_soc_read c d4.2 k.RT5671_DSP_CTRL5
  let ret := toInt32 (rr.1 : Int)
  if ret < 0 then some (toUInt32 ret, rr.2) else
  let value := toUInt32 ret
  some (value, rr.2)

/-! ## `rt5671_dsp_set_mode` -/

/-- Table `static unsigned short rt5671_dsp_ns[][2]`. -/
def rt5671_dsp_ns : List (Nat × Nat) :=
  [(0x22f8, 0x8005), (0x2375, 0x7ff0), (0x2376, 0x7990), (0x2377, 0x7332),
   (0x2388, 0x7fff), (0x2389, 0x6000), (0x238a, 0x0000), (0x238b, 0x1000),
   (0x238c, 0x1000), (0x23a1, 0x2000), (0x2303, 0x0200), (0x2304, 0x0032),
   (0x2305, 0x0000), (0x230c, 0x0200), (0x22fb, 0x0000)]

/-- Macro `RT5671_DSP_NS_NUM`: `sizeof(rt5671_dsp_ns) / sizeof(rt5671_dsp_ns[0])`. -/
def RT5671_DSP_NS_NUM : Nat := rt5671_dsp_ns.length

/-- The `for (i = 0; i < tab_num; i++)` loop of `rt5671_dsp_set_mode`, over the
rows `mode_tab[i]` still to be written. -/
def rt5671_dsp_set_mode_loop {σ : Type} (k : Consts) (c : Codec σ) (fuel : Nat) :
    List (Nat × Nat) → World σ → Option (Int × World σ)
  | [], w => some (0, w)
  | row :: rest, w =>
    (rt5671_dsp_write k c fuel row.1 row.2 w).bind fun r =>
    if r.1 < 0 then some (r.1, r.2)
    else rt5671_dsp_set_mode_loop k c fuel rest r.2

/-- Function `static int rt5671_dsp_set_mode(struct snd_soc_codec *codec, int mode)`. -/
def rt5671_dsp_set_mode {σ : Type} (k : Consts) (c : Codec σ) (fuel : Nat)
    (mode : Int) (w : World σ) : Option (Int × World σ) :=
  if mode = k.RT5671_DSP_NS then
    rt5671_dsp_set_mode_loop k c fuel (rt5671_dsp_ns.take RT5671_DSP_NS_NUM) w
  else
    some (0, w)

/-! ## `rt5671_dsp_show` -/

/-- The terminating NUL character of a C string. -/
def NUL : Char := Char.ofNat 0

/-- The page handed to a sysfs `show` routine: a character for every offset. -/
abbrev Buf := Nat → Char

/-- Store the characters `cs` at offsets `off, off + 1, ...` of `buf`. -/
def bufWrite (buf : Buf) (off : Nat) (cs : List Char) : Buf :=
  fun j => if off ≤ j ∧ j < off + cs.length then cs.getD (j - off) NUL else buf j

/-- Kernel routine `sprintf(buf + off, s)` for a format without conversions: stores `s` and a
NUL, returns the length of `s`. -/
def sprintf (buf : Buf) (off : Nat) (s : List Char) : Nat × Buf :=
  (s.length, bufWrite buf off (s ++ [NUL]))

/-- Kernel routine `snprintf(buf + off, size, ...)` where the conversions expand to `s`:
stores at most `size - 1` characters of `s` and a NUL (nothing when `size` is
0) and returns the length of the whole of `s`. -/
def snprintf (buf : Buf) (off size : Nat) (s : List Char) : Nat × Buf :=
  (s.length, if size = 0 then buf else bufWrite buf off (s.take (size - 1) ++ [NUL]))

/-- The conversion `%04x` of an `unsigned int`: lower-case hexadecimal,
padded with zeros to at least four digits. -/
def fmt04x (v : Nat) : List Char :=
  let ds := Nat.toDigits 16 (v % 4294967296)
  List.replicate (4 - ds.length) '0' ++ ds

/-- The expansion of `"%04x: %04x\n"`. -/
def fmtRegLine (addr val : Nat) : List Char :=
  fmt04x addr ++ [':', ' '] ++ fmt04x val ++ ['\n']

/-- The text `"[ DSP 'NS' ]\n"`. -/
def hdrNS : List Char :=
  ['[', ' ', 'D', 'S', 'P', ' ', Char.ofNat 39, 'N', 'S', Char.ofNat 39, ' ', ']', '\n']

/-- The text `"DSP Disabled\n"`. -/
def hdrDisabled : List Char :=
  ['D', 'S', 'P', ' ', 'D', 'i', 's', 'a', 'b', 'l', 'e', 'd', '\n']

/-- The `for (i = 0; i < tab_num; i++)` loop of `rt5671_dsp_show`, over the rows
`rt5671_dsp_tab[i]` still to be dumped; `break` leaves with the current state. -/
def rt5671_dsp_show_loop {σ : Type} (k : Consts) (c : Codec σ) (fuel : Nat) :
    List (Nat × Nat) → Nat → Buf → World σ → Option (Nat × Buf × World σ)
  | [], cnt, buf, w => some (cnt, buf, w)
  | row :: rest, cnt, buf, w =>
    if cnt + k.RT5671_DSP_REG_DISP_LEN ≥ k.PAGE_SIZE then
      some (cnt, buf, w)
    else
      (rt5671_dsp_read k c fuel row.1 w).bind fun r =>
      let p := snprintf buf cnt k.RT5671_DSP_REG_DISP_LEN (fmtRegLine row.1 r.1)
      rt5671_dsp_show_loop k c fuel rest (cnt + p.1) p.2 r.2

/-- The code after the label `dsp_done:` of `rt5671_dsp_show`. -/
def rt5671_dsp_show_done (k : Consts) (cnt : Nat) : Nat :=
  if cnt ≥ k.PAGE_SIZE then k.PAGE_SIZE - 1 else cnt

/-- Function `static ssize_t rt5671_dsp_show(dev, attr, buf)`; `dsp_sw` is the field
`rt5671->dsp_sw`. Yields the count returned, the buffer and the device. -/
def rt5671_dsp_show {σ : Type} (k : Consts) (c : Codec σ) (fuel : Nat)
    (dsp_sw : Int) (buf : Buf) (w : World σ) : Option (Nat × Buf × World σ) :=
  if dsp_sw = k.RT5671_DSP_NS then
    let p0 := sprintf buf 0 hdrNS
    (rt5671_dsp_show_loop k c fuel (rt5671_dsp_ns.take RT5671_DSP_NS_NUM)
        (0 + p0.1) p0.2 w).bind fun l =>
    if l.1 + k.RT5671_DSP_REG_DISP_LEN < k.PAGE_SIZE then
      (rt5671_dsp_read k c fuel 0x3fb5 l.2.2).bind fun r =>
      let p := snprintf l.2.1 l.1 k.RT5671_DSP_REG_DISP_LEN (fmtRegLine 0x3fb5 r.1)
      some (rt5671_dsp_show_done k (l.1 + p.1), p.2, r.2)
    else
      some (rt5671_dsp_show_done k l.1, l.2.1, l.2.2)
  else
    let p0 := sprintf buf 0 hdrDisabled
    some (rt5671_dsp_show_done k (0 + p0.1), p0.2, w)

/-! ## Auxiliary notions used in the statements -/

/-- The busy test `dsp_val & RT5671_DSP_BUSY_MASK` of `rt5671_dsp_done`. -/
def busy (k : Consts) (v : Nat) : Prop := v &&& k.RT5671_DSP_BUSY_MASK ≠ 0

instance (k : Consts) (v : Nat) : Decidable (busy k v) := by
  unfold busy; infer_instance

/-- Device state after `n` consecutive reads of register `reg`. -/
def stAfterReads {σ : Type} (c : Codec σ) (reg : Nat) : Nat → σ → σ
  | 0, s => s
  | n + 1, s => stAfterReads c reg n (c.read s reg).2

/-- Value delivered by read number `i` (counting from 0) when register `reg`
is read over and over, starting in state `s`. -/
def nthRead {σ : Type} (c : Codec σ) (reg : Nat) (s : σ) (i : Nat) : Nat :=
  (c.read (stAfterReads c reg i s) reg).1 % 4294967296

/-- The trace left by reads number `a, a + 1, ..., a + n - 1` of `reg`. -/
def readEvents {σ : Type} (c : Codec σ) (reg : Nat) (s : σ) (a n : Nat) : List Access :=
  (List.range' a n).map fun i => Access.rd reg (nthRead c reg s i)

/-- The loop of `rt5671_dsp_done` with `m` re-reads left, as a total function:
what `rt5671_dsp_done_loop` computes at `count = 11 - m` given enough fuel. -/
def pollFrom {σ : Type} (k : Consts) (c : Codec σ) : Nat → Nat → World σ → Int × World σ
  | 0, v, w => if busy k v then (-(k.EBUSY : Int), w) else (0, w)
  | m + 1, v, w =>
    if busy k v then
      let r := snd_soc_read c w k.RT5671_DSP_CTRL1
      pollFrom k c m r.1 r.2
    else (0, w)

/-- The result of `rt5671_dsp_done` as a total function. -/
def poll {σ : Type} (k : Consts) (c : Codec σ) (w : World σ) : Int × World σ :=
  let r := snd_soc_read c w k.RT5671_DSP_CTRL1
  pollFrom k c 11 r.1 r.2

/-- Run `rt5671_dsp_write` on every row of `rows`, in order and whatever the
codes returned, collecting these codes; used to say which writes a run of
`rt5671_dsp_set_mode` has made. -/
def writeRows {σ : Type} (k : Consts) (c : Codec σ) (fuel : Nat) :
    List (Nat × Nat) → World σ → Option (List Int × World σ)
  | [], w => some ([], w)
  | row :: rest, w =>
    (rt5671_dsp_write k c fuel row.1 row.2 w).bind fun r =>
    (writeRows k c fuel rest r.2).map fun p => (r.1 :: p.1, p.2)

/-- The buffer `buf` holds the C string `text`: the characters of `text` from
offset 0 on, none of them NUL, followed by a NUL. -/
def HoldsCString (buf : Buf) (text : List Char) : Prop :=
  NUL ∉ text ∧ (∀ i, i < text.length → buf i = text.getD i NUL) ∧ buf text.length = NUL

/-- The text of whole register lines, one per `(address, value)` pair. -/
def linesText : List (Nat × Nat) → List Char
  | [] => []
  | p :: ps => fmtRegLine p.1 p.2 ++ linesText ps

/-! ## Sample devices and constants for concrete runs -/

/-- A sample assignment of the header constants, with the line size
`RT5671_DSP_REG_DISP_LEN` left open; used to run the model on concrete inputs. -/
def sampleConsts (len : Nat) : Consts where
  RT5671_DSP_CTRL1 := 0xe0
  RT5671_DSP_CTRL2 := 0xe1
  RT5671_DSP_CTRL3 := 0xe2
  RT5671_DSP_CTRL5 := 0xe4
  RT5671_DSP_BUSY_MASK := 0x20
  RT5671_DSP_RW_MASK := 0x10
  RT5671_DSP_I2C_AL_16 := 0x2
  RT5671_DSP_DL_0 := 0x0
  RT5671_DSP_DL_1 := 0x4
  RT5671_DSP_DL_2 := 0x8
  RT5671_DSP_CMD_MW := 0x3b00
  RT5671_DSP_CMD_MR := 0x3700
  RT5671_DSP_CMD_RR := 0x6000
  RT5671_DSP_CLK_96K := 0xc0
  RT5671_DSP_CMD_EN := 0x1
  RT5671_DSP_REG_DISP_LEN := len
  RT5671_DSP_DIS := 0
  RT5671_DSP_NS := 1
  PAGE_SIZE := 4096
  EBUSY := 16

/-- A device that answers reads from a script (0 once the script is used up)
and accepts every write. -/
def scriptCodec : Codec (List Nat) where
  read := fun s _ => (s.headD 0, s.tail)
  write := fun s _ _ => (0, s)

/-- A device on which every register always reads `v` and every write is
accepted. -/
def constCodec (v : Nat) : Codec Unit where
  read := fun s _ => (v, s)
  write := fun s _ _ => (0, s)

/-- A device on which every register reads 0 and a write to register `reg`
fails with status `err`. -/
def nakCodec (reg : Nat) (err : Int) : Codec Unit where
  read := fun s _ => (0, s)
  write := fun s r _ => (if r = reg then err else 0, s)

/-- A zero-filled page. -/
def zeroPage : Buf := fun _ => NUL

/-- The scripted device before any access, with the reads it will answer. -/
def scriptWorld (l : List Nat) : World (List Nat) := ⟨l, []⟩

/-- A stateless device before any access. -/
def unitWorld : World Unit := ⟨(), []⟩

/-! ## The busy poll -/

section Poll

variable {σ : Type}

theorem done_loop_eq_pollFrom (k : Consts) (c : Codec σ) :
    ∀ (m fuel count v : Nat) (w : World σ), count + m = 11 → m + 1 ≤ fuel →
      rt5671_dsp_done_loop k c fuel count v w = some (pollFrom k c m v w) := by
  intro m
  induction m with
  | zero =>
    intro fuel count v w hc hf
    obtain ⟨f, rfl⟩ : ∃ f, fuel = f + 1 := ⟨fuel - 1, by omega⟩
    have h10 : count > 10 := by omega
    by_cases hb : v &&& k.RT5671_DSP_BUSY_MASK ≠ 0
    · simp [rt5671_dsp_done_loop, pollFrom, busy, hb, h10]
    · simp [rt5671_dsp_done_loop, pollFrom, busy, hb]
  | succ m ih =>
    intro fuel count v w hc hf
    obtain ⟨f, rfl⟩ : ∃ f, fuel = f + 1 := ⟨fuel - 1, by omega⟩
    have h10 : ¬ count > 10 := by omega
    by_cases hb : v &&& k.RT5671_DSP_BUSY_MASK ≠ 0
    · have := ih f (count + 1) (snd_soc_read c w k.RT5671_DSP_CTRL1).1
        (snd_soc_read c w k.RT5671_DSP_CTRL1).2 (by omega) (by omega)
      simp [rt5671_dsp_done_loop, pollFrom, busy, hb, h10, this]
    · simp [rt5671_dsp_done_loop, pollFrom, busy, hb]

/-- With twelve units of fuel `rt5671_dsp_done` returns, and returns `poll`. -/
theorem done_eq_poll (k : Consts) (c : Codec σ) (fuel : Nat) (w : World σ)
    (hfuel : 12 ≤ fuel) : rt5671_dsp_done k c fuel w = some (poll k c w) := by
  unfold rt5671_dsp_done poll
  exact done_loop_eq_pollFrom k c 11 fuel 0 _ _ (by omega) (by omega)

theorem stAfterReads_succ (c : Codec σ) (reg : Nat) :
    ∀ (n : Nat) (s : σ),
      stAfterReads c reg (n + 1) s = (c.read (stAfterReads c reg n s) reg).2 := by
  intro n
  induction n with
  | zero => intro s; rfl
  | succ n ih => intro s; exact ih (c.read s reg).2

theorem pollFrom_spec (k : Consts) (c : Codec σ) (s0 : σ) :
    ∀ (m j v : Nat) (w : World σ),
      w.st = stAfterReads c k.RT5671_DSP_CTRL1 (j + 1) s0 →
      v = nthRead c k.RT5671_DSP_CTRL1 s0 j →
      ∃ n, n ≤ m ∧
        (pollFrom k c m v w).2.st = stAfterReads c k.RT5671_DSP_CTRL1 (j + 1 + n) s0 ∧
        (pollFrom k c m v w).2.trace =
          w.trace ++ readEvents c k.RT5671_DSP_CTRL1 s0 (j + 1) n ∧
        (∀ i, j ≤ i → i < j + n → busy k (nthRead c k.RT5671_DSP_CTRL1 s0 i)) ∧
        ((¬ busy k (nthRead c k.RT5671_DSP_CTRL1 s0 (j + n)) ∧ (pollFrom k c m v w).1 = 0) ∨
         (n = m ∧ busy k (nthRead c k.RT5671_DSP_CTRL1 s0 (j + n)) ∧
           (pollFrom k c m v w).1 = -(k.EBUSY : Int))) := by
  intro m
  induction m with
  | zero =>
    intro j v w hst hv
    refine ⟨0, le_refl _, ?_, ?_, ?_, ?_⟩
    · by_cases hb : busy k v <;> simp [pollFrom, hb, hst]
    · by_cases hb : busy k v <;> simp [pollFrom, hb, readEvents]
    · intro i h1 h2; omega
    · by_cases hb : busy k v
      · right; subst hv; simp [pollFrom, hb]
      · left; subst hv; simp [pollFrom, hb]
  | succ m ih =>
    intro j v w hst hv
    by_cases hb : busy k v
    · have hst' : (snd_soc_read c w k.RT5671_DSP_CTRL1).2.st =
          stAfterReads c k.RT5671_DSP_CTRL1 (j + 1 + 1) s0 := by
        rw [stAfterReads_succ]; simp [snd_soc_read, hst]
      have hv' : (snd_soc_read c w k.RT5671_DSP_CTRL1).1 =
          nthRead c k.RT5671_DSP_CTRL1 s0 (j + 1) := by
        simp [snd_soc_read, nthRead, hst]
      obtain ⟨n, hn, h1, h2, h3, h4⟩ := ih (j + 1) _ _ hst' hv'
      have hp : pollFrom k c (m + 1) v w =
          pollFrom k c m (snd_soc_read c w k.RT5671_DSP_CTRL1).1
            (snd_soc_read c w k.RT5671_DSP_CTRL1).2 := by
        simp [pollFrom, hb]
      refine ⟨n + 1, by omega, ?_, ?_, ?_, ?_⟩
      · rw [hp, h1]; congr 1; omega
      · rw [hp, h2]
        simp only [snd_soc_read, readEvents, List.range'_succ, List.map_cons,
          List.append_assoc, List.singleton_append]
        rw [hst]
        rfl
      · intro i hi1 hi2
        by_cases hij : i = j
        · subst hij; rw [← hv]; exact hb
        · exact h3 i (by omega) (by omega)
      · have e : j + (n + 1) = j + 1 + n := by omega
        rw [hp, e]
        rcases h4 with ⟨a, b⟩ | ⟨a, b, d⟩
        · left; exact ⟨a, b⟩
        · right; exact ⟨by omega, b, d⟩
    · refine ⟨0, Nat.zero_le _, ?_, ?_, ?_, ?_⟩
      · simp [pollFrom, hb, hst]
      · simp [pollFrom, hb, readEvents]
      · intro i h1 h2; omega
      · left; subst hv; simp [pollFrom, hb]

/-- C2. For every device and every state, `rt5671_dsp_done` returns after `n`
reads of the command/status register with `1 ≤ n ≤ 12`; every read but the
last one saw the busy bit set; it stops at the first read whose busy bit is
clear and then returns 0; and it returns `-EBUSY` exactly when the busy bit is
set in all of the first 12 reads. -/
theorem rt5671_dsp_done_bounded_poll (k : Consts) (c : Codec σ) (fuel : Nat) (w : World σ)
    (hfuel : 12 ≤ fuel) (hE : 0 < k.EBUSY) :
    ∃ (n : Nat) (ret : Int),
      1 ≤ n ∧ n ≤ 12 ∧
      rt5671_dsp_done k c fuel w =
        some (ret, ⟨stAfterReads c k.RT5671_DSP_CTRL1 n w.st,
                    w.trace ++ readEvents c k.RT5671_DSP_CTRL1 w.st 0 n⟩) ∧
      (∀ i, i + 1 < n → busy k (nthRead c k.RT5671_DSP_CTRL1 w.st i)) ∧
      (¬ busy k (nthRead c k.RT5671_DSP_CTRL1 w.st (n - 1)) → ret = 0) ∧
      (busy k (nthRead c k.RT5671_DSP_CTRL1 w.st (n - 1)) →
        n = 12 ∧ ret = -(k.EBUSY : Int)) ∧
      (∀ j, j < 12 → ¬ busy k (nthRead c k.RT5671_DSP_CTRL1 w.st j) →
        (∀ i, i < j → busy k (nthRead c k.RT5671_DSP_CTRL1 w.st i)) →
        n = j + 1 ∧ ret = 0) ∧
      (ret = -(k.EBUSY : Int) ↔
        ∀ i, i < 12 → busy k (nthRead c k.RT5671_DSP_CTRL1 w.st i)) := by
  have hst : (snd_soc_read c w k.RT5671_DSP_CTRL1).2.st =
      stAfterReads c k.RT5671_DSP_CTRL1 (0 + 1) w.st := by
    simp [snd_soc_read, stAfterReads]
  have hv : (snd_soc_read c w k.RT5671_DSP_CTRL1).1 =
      nthRead c k.RT5671_DSP_CTRL1 w.st 0 := by
    simp [snd_soc_read, nthRead, stAfterReads]
  obtain ⟨n, hn, h1, h2, h3, h4⟩ := pollFrom_spec k c w.st 11 0 _ _ hst hv
  have hne : (-(k.EBUSY : Int)) ≠ 0 := by
    have : (0 : Int) < (k.EBUSY : Int) := by exact_mod_cast hE
    omega
  have hres : poll k c w = pollFrom k c 11 (snd_soc_read c w k.RT5671_DSP_CTRL1).1
      (snd_soc_read c w k.RT5671_DSP_CTRL1).2 := rfl
  simp only [Nat.zero_add] at h1 h2 h3 h4
  replace h3 : ∀ i, i < n → busy k (nthRead c k.RT5671_DSP_CTRL1 w.st i) :=
    fun i hi => h3 i (Nat.zero_le i) hi
  refine ⟨n + 1, (poll k c w).1, by omega, by omega, ?_, ?_, ?_, ?_, ?_, ?_⟩
  · rw [done_eq_poll k c fuel w hfuel]
    have e1 : (poll k c w).2.st = stAfterReads c k.RT5671_DSP_CTRL1 (n + 1) w.st := by
      rw [hres, h1]; congr 1; omega
    have e2 : (poll k c w).2.trace =
        w.trace ++ readEvents c k.RT5671_DSP_CTRL1 w.st 0 (n + 1) := by
      rw [hres, h2]
      simp [snd_soc_read, readEvents, List.range'_succ, nthRead, stAfterReads]
    rcases hp : poll k c w with ⟨r, ⟨st, tr⟩⟩
    rw [hp] at e1 e2
    simp only at e1 e2
    subst e1; subst e2; rfl
  · intro i hi; exact h3 i (by omega)
  · intro hnb
    rcases h4 with ⟨_, b⟩ | ⟨_, b, _⟩
    · rw [hres]; exact b
    · exact absurd b hnb
  · intro hb
    rcases h4 with ⟨a, _⟩ | ⟨a, _, d⟩
    · exact absurd hb a
    · exact ⟨by omega, by rw [hres]; exact d⟩
  · intro j hj hjc hjb
    rcases h4 with ⟨a, b⟩ | ⟨a, b, d⟩
    · have h5 : ¬ j < n := fun hlt => hjc (h3 j hlt)
      have h6 : ¬ n < j := fun hlt => a (hjb n hlt)
      exact ⟨by omega, by rw [hres]; exact b⟩
    · have h5 : ¬ j < n := fun hlt => hjc (h3 j hlt)
      have h6 : j = n := by omega
      subst h6; exact absurd b hjc
  · constructor
    · intro hr i hi
      rcases h4 with ⟨_, b⟩ | ⟨a, b, _⟩
      · rw [hres] at hr; rw [hr] at b; exact absurd b hne
      · by_cases hin : i < n
        · exact h3 i hin
        · have : i = n := by omega
          subst this; exact b
    · intro hall
      rcases h4 with ⟨a, _⟩ | ⟨_, _, d⟩
      · exact absurd (hall n (by omega)) a
      · rw [hres]; exact d

/-- Witness of C2: a device that is busy for two reads and idle at the third. -/
theorem rt5671_dsp_done_bounded_poll_witness :
    12 ≤ 12 ∧ 0 < (sampleConsts 12).EBUSY ∧
    (rt5671_dsp_done (sampleConsts 12) scriptCodec 12 (scriptWorld [0x20, 0x20, 0])).map
        (fun r => (r.1, r.2.trace)) =
      some (0, [Access.rd 0xe0 0x20, Access.rd 0xe0 0x20, Access.rd 0xe0 0]) ∧
    ∃ (n : Nat) (ret : Int),
      1 ≤ n ∧ n ≤ 12 ∧
      rt5671_dsp_done (sampleConsts 12) scriptCodec 12 (scriptWorld [0x20, 0x20, 0]) =
        some (ret, ⟨stAfterReads scriptCodec (sampleConsts 12).RT5671_DSP_CTRL1 n
                      (scriptWorld [0x20, 0x20, 0]).st,
                    (scriptWorld [0x20, 0x20, 0]).trace ++
                      readEvents scriptCodec (sampleConsts 12).RT5671_DSP_CTRL1
                        (scriptWorld [0x20, 0x20, 0]).st 0 n⟩) ∧
      (∀ i, i + 1 < n → busy (sampleConsts 12)
        (nthRead scriptCodec (sampleConsts 12).RT5671_DSP_CTRL1
          (scriptWorld [0x20, 0x20, 0]).st i)) ∧
      (¬ busy (sampleConsts 12) (nthRead scriptCodec (sampleConsts 12).RT5671_DSP_CTRL1
          (scriptWorld [0x20, 0x20, 0]).st (n - 1)) → ret = 0) ∧
      (busy (sampleConsts 12) (nthRead scriptCodec (sampleConsts 12).RT5671_DSP_CTRL1
          (scriptWorld [0x20, 0x20, 0]).st (n - 1)) →
        n = 12 ∧ ret = -((sampleConsts 12).EBUSY : Int)) ∧
      (∀ j, j < 12 → ¬ busy (sampleConsts 12)
          (nthRead scriptCodec (sampleConsts 12).RT5671_DSP_CTRL1
            (scriptWorld [0x20, 0x20, 0]).st j) →
        (∀ i, i < j → busy (sampleConsts 12)
          (nthRead scriptCodec (sampleConsts 12).RT5671_DSP_CTRL1
            (scriptWorld [0x20, 0x20, 0]).st i)) →
        n = j + 1 ∧ ret = 0) ∧
      (ret = -((sampleConsts 12).EBUSY : Int) ↔
        ∀ i, i < 12 → busy (sampleConsts 12)
          (nthRead scriptCodec (sampleConsts 12).RT5671_DSP_CTRL1
            (scriptWorld [0x20, 0x20, 0]).st i)) :=
  ⟨by decide, by decide, by decide,
   rt5671_dsp_done_bounded_poll (sampleConsts 12) scriptCodec 12
     (scriptWorld [0x20, 0x20, 0]) (by decide) (by decide)⟩

end Poll

/-! ## `rt5671_dsp_write`: order of the steps -/

section Write

variable {σ : Type}

/-- With twelve units of fuel `rt5671_dsp_write` returns: the cascade of its
four steps, with the poll as a total function. -/
theorem dsp_write_eq (k : Consts) (c : Codec σ) (fuel addr data : Nat)
    (w : World σ) (hfuel : 12 ≤ fuel) :
    rt5671_dsp_write k c fuel addr data w =
      some (
        let r1 := snd_soc_write c w k.RT5671_DSP_CTRL2 addr
        if r1.1 < 0 then (r1.1, r1.2) else
        let r2 := snd_soc_write c r1.2 k.RT5671_DSP_CTRL3 data
        if r2.1 < 0 then (r2.1, r2.2) else
        let r3 := snd_soc_write c r2.2 k.RT5671_DSP_CTRL1
          (k.RT5671_DSP_I2C_AL_16 ||| k.RT5671_DSP_DL_2 ||| k.RT5671_DSP_CMD_MW |||
            DSP_CLK_RATE k ||| k.RT5671_DSP_CMD_EN)
        if r3.1 < 0 then (r3.1, r3.2) else
        if (poll k c r3.2).1 < 0 then ((poll k c r3.2).1, (poll k c r3.2).2)
        else (0, (poll k c r3.2).2)) := by
  simp only [rt5671_dsp_write, done_eq_poll k c fuel _ hfuel, Option.some_bind]
  split_ifs <;> rfl

/-- C1. For every device state and every `(addr, data)`, `rt5671_dsp_write`
writes `addr` to `RT5671_DSP_CTRL2`, then `data` to `RT5671_DSP_CTRL3`, then
the fixed command word to `RT5671_DSP_CTRL1`, then polls with
`rt5671_dsp_done`; at the first step whose code is negative it returns that
code from the state reached by that step (no later step is made); and it
returns 0 exactly when all four steps gave a non-negative code. -/
theorem rt5671_dsp_write_steps (k : Consts) (c : Codec σ) (fuel addr data : Nat)
    (w : World σ) (hfuel : 12 ≤ fuel) :
    let cmd := k.RT5671_DSP_I2C_AL_16 ||| k.RT5671_DSP_DL_2 ||| k.RT5671_DSP_CMD_MW |||
      DSP_CLK_RATE k ||| k.RT5671_DSP_CMD_EN
    let r1 := snd_soc_write c w k.RT5671_DSP_CTRL2 addr
    let r2 := snd_soc_write c r1.2 k.RT5671_DSP_CTRL3 data
    let r3 := snd_soc_write c r2.2 k.RT5671_DSP_CTRL1 cmd
    ∃ r4 : Int × World σ, rt5671_dsp_done k c fuel r3.2 = some r4 ∧
      r1.2.trace = w.trace ++ [Access.wr k.RT5671_DSP_CTRL2 addr r1.1] ∧
      r2.2.trace = r1.2.trace ++ [Access.wr k.RT5671_DSP_CTRL3 data r2.1] ∧
      r3.2.trace = r2.2.trace ++ [Access.wr k.RT5671_DSP_CTRL1 cmd r3.1] ∧
      (r1.1 < 0 → rt5671_dsp_write k c fuel addr data w = some (r1.1, r1.2)) ∧
      (0 ≤ r1.1 → r2.1 < 0 →
        rt5671_dsp_write k c fuel addr data w = some (r2.1, r2.2)) ∧
      (0 ≤ r1.1 → 0 ≤ r2.1 → r3.1 < 0 →
        rt5671_dsp_write k c fuel addr data w = some (r3.1, r3.2)) ∧
      (0 ≤ r1.1 → 0 ≤ r2.1 → 0 ≤ r3.1 → r4.1 < 0 →
        rt5671_dsp_write k c fuel addr data w = some (r4.1, r4.2)) ∧
      (0 ≤ r1.1 → 0 ≤ r2.1 → 0 ≤ r3.1 → 0 ≤ r4.1 →
        rt5671_dsp_write k c fuel addr data w = some (0, r4.2)) ∧
      ∃ res : Int × World σ, rt5671_dsp_write k c fuel addr data w = some res ∧
        (res.1 = 0 ↔ 0 ≤ r1.1 ∧ 0 ≤ r2.1 ∧ 0 ≤ r3.1 ∧ 0 ≤ r4.1) := by
  intro cmd r1 r2 r3
  have hw : rt5671_dsp_write k c fuel addr data w =
      if r1.1 < 0 then some (r1.1, r1.2) else
      if r2.1 < 0 then some (r2.1, r2.2) else
      if r3.1 < 0 then some (r3.1, r3.2) else
      if (poll k c r3.2).1 < 0 then some ((poll k c r3.2).1, (poll k c r3.2).2)
      else some (0, (poll k c r3.2).2) := by
    simp only [rt5671_dsp_write, done_eq_poll k c fuel _ hfuel, Option.some_bind]
  refine ⟨poll k c r3.2, done_eq_poll k c fuel r3.2 hfuel, rfl, rfl, rfl, ?_, ?_, ?_, ?_, ?_, ?_⟩
  · intro h1
    rw [hw, if_pos h1]
  · intro h1 h2
    rw [hw, if_neg (not_lt.mpr h1), if_pos h2]
  · intro h1 h2 h3
    rw [hw, if_neg (not_lt.mpr h1), if_neg (not_lt.mpr h2), if_pos h3]
  · intro h1 h2 h3 h4
    rw [hw, if_neg (not_lt.mpr h1), if_neg (not_lt.mpr h2), if_neg (not_lt.mpr h3), if_pos h4]
  · intro h1 h2 h3 h4
    rw [hw, if_neg (not_lt.mpr h1), if_neg (not_lt.mpr h2), if_neg (not_lt.mpr h3),
      if_neg (not_lt.mpr h4)]
  · rw [hw]
    clear hw
    generalize (poll k c r3.2) = r4
    clear_value r1 r2 r3
    split_ifs with h1 h2 h3 h4
    · exact ⟨_, rfl, by constructor <;> intro h <;> dsimp only at * <;> omega⟩
    · exact ⟨_, rfl, by constructor <;> intro h <;> dsimp only at * <;> omega⟩
    · exact ⟨_, rfl, by constructor <;> intro h <;> dsimp only at * <;> omega⟩
    · exact ⟨_, rfl, by constructor <;> intro h <;> dsimp only at * <;> omega⟩
    · exact ⟨_, rfl, by constructor <;> intro h <;> (dsimp only at *; try omega)⟩

/-- Witness of C1: one write of the first table row to an idle device. -/
theorem rt5671_dsp_write_steps_witness :
    12 ≤ 12 ∧
    (rt5671_dsp_write (sampleConsts 12) (constCodec 0) 12 0x22f8 0x8005 unitWorld).map
        (fun r => (r.1, r.2.trace)) =
      some (0, [Access.wr 0xe1 0x22f8 0, Access.wr 0xe2 0x8005 0,
                Access.wr 0xe0 0x3bcb 0, Access.rd 0xe0 0]) ∧
    (let cmd := (sampleConsts 12).RT5671_DSP_I2C_AL_16 ||| (sampleConsts 12).RT5671_DSP_DL_2 |||
      (sampleConsts 12).RT5671_DSP_CMD_MW ||| DSP_CLK_RATE (sampleConsts 12) |||
      (sampleConsts 12).RT5671_DSP_CMD_EN
    let r1 := snd_soc_write (constCodec 0) unitWorld (sampleConsts 12).RT5671_DSP_CTRL2 0x22f8
    let r2 := snd_soc_write (constCodec 0) r1.2 (sampleConsts 12).RT5671_DSP_CTRL3 0x8005
    let r3 := snd_soc_write (constCodec 0) r2.2 (sampleConsts 12).RT5671_DSP_CTRL1 cmd
    ∃ r4 : Int × World Unit, rt5671_dsp_done (sampleConsts 12) (constCodec 0) 12 r3.2 = some r4 ∧
      r1.2.trace = unitWorld.trace ++
        [Access.wr (sampleConsts 12).RT5671_DSP_CTRL2 0x22f8 r1.1] ∧
      r2.2.trace = r1.2.trace ++ [Access.wr (sampleConsts 12).RT5671_DSP_CTRL3 0x8005 r2.1] ∧
      r3.2.trace = r2.2.trace ++ [Access.wr (sampleConsts 12).RT5671_DSP_CTRL1 cmd r3.1] ∧
      (r1.1 < 0 → rt5671_dsp_write (sampleConsts 12) (constCodec 0) 12 0x22f8 0x8005 unitWorld =
        some (r1.1, r1.2)) ∧
      (0 ≤ r1.1 → r2.1 < 0 →
        rt5671_dsp_write (sampleConsts 12) (constCodec 0) 12 0x22f8 0x8005 unitWorld =
          some (r2.1, r2.2)) ∧
      (0 ≤ r1.1 → 0 ≤ r2.1 → r3.1 < 0 →
        rt5671_dsp_write (sampleConsts 12) (constCodec 0) 12 0x22f8 0x8005 unitWorld =
          some (r3.1, r3.2)) ∧
      (0 ≤ r1.1 → 0 ≤ r2.1 → 0 ≤ r3.1 → r4.1 < 0 →
        rt5671_dsp_write (sampleConsts 12) (constCodec 0) 12 0x22f8 0x8005 unitWorld =
          some (r4.1, r4.2)) ∧
      (0 ≤ r1.1 → 0 ≤ r2.1 → 0 ≤ r3.1 → 0 ≤ r4.1 →
        rt5671_dsp_write (sampleConsts 12) (constCodec 0) 12 0x22f8 0x8005 unitWorld =
          some (0, r4.2)) ∧
      ∃ res : Int × World Unit,
        rt5671_dsp_write (sampleConsts 12) (constCodec 0) 12 0x22f8 0x8005 unitWorld =
          some res ∧
        (res.1 = 0 ↔ 0 ≤ r1.1 ∧ 0 ≤ r2.1 ∧ 0 ≤ r3.1 ∧ 0 ≤ r4.1)) :=
  ⟨by decide, by decide,
   rt5671_dsp_write_steps (sampleConsts 12) (constCodec 0) 12 0x22f8 0x8005 unitWorld
     (by decide)⟩

end Write

/-! ## `rt5671_dsp_set_mode` -/

section SetMode

variable {σ : Type}

theorem set_mode_loop_spec (k : Consts) (c : Codec σ) (fuel : Nat) (hfuel : 12 ≤ fuel) :
    ∀ (rows : List (Nat × Nat)) (w : World σ),
      ∃ (n : Nat) (rets : List Int) (r : Int) (w' : World σ),
        n ≤ rows.length ∧ rets.length = n ∧
        rt5671_dsp_set_mode_loop k c fuel rows w = some (r, w') ∧
        writeRows k c fuel (rows.take n) w = some (rets, w') ∧
        (∀ x ∈ rets.dropLast, 0 ≤ x) ∧
        ((n = rows.length ∧ (∀ x ∈ rets, 0 ≤ x) ∧ r = 0) ∨
         (rets.getLast? = some r ∧ r < 0)) := by
  intro rows
  induction rows with
  | nil =>
    intro w
    exact ⟨0, [], 0, w, le_refl _, rfl, rfl, rfl, by simp, Or.inl ⟨rfl, by simp, rfl⟩⟩
  | cons row rest ih =>
    intro w
    obtain ⟨res, hres⟩ : ∃ res, rt5671_dsp_write k c fuel row.1 row.2 w = some res :=
      ⟨_, dsp_write_eq k c fuel row.1 row.2 w hfuel⟩
    by_cases hneg : res.1 < 0
    · refine ⟨1, [res.1], res.1, res.2, by simp, rfl, ?_, ?_, by simp, Or.inr ⟨rfl, hneg⟩⟩
      · simp [rt5671_dsp_set_mode_loop, hres, hneg]
      · simp [writeRows, hres]
    · obtain ⟨n, rets, r, w', hn, hlen, hloop, hrows, hdl, hfin⟩ := ih res.2
      refine ⟨n + 1, res.1 :: rets, r, w', by simpa using hn, by simp [hlen], ?_, ?_, ?_, ?_⟩
      · simp [rt5671_dsp_set_mode_loop, hres, hneg, hloop]
      · simp [writeRows, hres, hrows]
      · intro x hx
        cases rets with
        | nil => simp at hx
        | cons y ys =>
          rw [List.dropLast_cons₂] at hx
          rcases List.mem_cons.mp hx with h | h
          · rw [h]; exact not_lt.mp hneg
          · exact hdl x h
      · rcases hfin with ⟨a, b, d⟩ | ⟨a, b⟩
        · left
          refine ⟨by simp [a], ?_, d⟩
          intro x hx
          rcases List.mem_cons.mp hx with h | h
          · rw [h]; exact not_lt.mp hneg
          · exact b x h
        · right
          refine ⟨?_, b⟩
          cases rets with
          | nil => simp at a
          | cons y ys => rw [List.getLast?_cons_cons]; exact a

/-- C4. `rt5671_dsp_set_mode` on mode `RT5671_DSP_NS` calls `rt5671_dsp_write`
on the first `n` of the 15 rows of `rt5671_dsp_ns`, in table order from
`(0x22f8, 0x8005)` to `(0x22fb, 0x0000)`: all calls but the last returned a
non-negative code, and either all 15 rows were written without a negative code
and the result is 0, or the last call made returned a negative code, which is
the result, and no further row is written. On every other mode the result is 0
and the device and its trace are untouched. -/
theorem rt5671_dsp_set_mode_spec (k : Consts) (c : Codec σ) (fuel : Nat) (mode : Int)
    (w : World σ) (hfuel : 12 ≤ fuel) :
    rt5671_dsp_ns.length = 15 ∧
    rt5671_dsp_ns.head? = some (0x22f8, 0x8005) ∧
    rt5671_dsp_ns.getLast? = some (0x22fb, 0x0000) ∧
    (mode ≠ k.RT5671_DSP_NS → rt5671_dsp_set_mode k c fuel mode w = some (0, w)) ∧
    (mode = k.RT5671_DSP_NS →
      ∃ (n : Nat) (rets : List Int) (r : Int) (w' : World σ),
        n ≤ 15 ∧ rets.length = n ∧
        rt5671_dsp_set_mode k c fuel mode w = some (r, w') ∧
        writeRows k c fuel (rt5671_dsp_ns.take n) w = some (rets, w') ∧
        (∀ x ∈ rets.dropLast, 0 ≤ x) ∧
        ((n = 15 ∧ (∀ x ∈ rets, 0 ≤ x) ∧ r = 0) ∨
         (rets.getLast? = some r ∧ r < 0))) := by
  refine ⟨rfl, rfl, rfl, ?_, ?_⟩
  · intro hm
    simp [rt5671_dsp_set_mode, hm]
  · intro hm
    obtain ⟨n, rets, r, w', hn, hlen, hloop, hrows, hdl, hfin⟩ :=
      set_mode_loop_spec k c fuel hfuel rt5671_dsp_ns w
    have h15 : rt5671_dsp_ns.length = 15 := rfl
    have htake : rt5671_dsp_ns.take RT5671_DSP_NS_NUM = rt5671_dsp_ns := List.take_length _
    refine ⟨n, rets, r, w', by omega, hlen, ?_, hrows, hdl, ?_⟩
    · simp only [rt5671_dsp_set_mode, hm, if_true, htake]
      exact hloop
    · rcases hfin with ⟨a, b, d⟩ | h
      · exact Or.inl ⟨by omega, b, d⟩
      · exact Or.inr h

/-- Witness of C4: on an idle device all 15 rows are written (four accesses
each); on a device that rejects writes to the DSP data register the first
row fails and nothing more is written. -/
theorem rt5671_dsp_set_mode_spec_witness :
    12 ≤ 12 ∧
    (rt5671_dsp_set_mode (sampleConsts 12) (constCodec 0) 12 1 unitWorld).map
        (fun r => (r.1, r.2.trace.length)) = some (0, 60) ∧
    (rt5671_dsp_set_mode (sampleConsts 12) (nakCodec 0xe2 (-5)) 12 1 unitWorld).map
        (fun r => (r.1, r.2.trace)) =
      some (-5, [Access.wr 0xe1 0x22f8 0, Access.wr 0xe2 0x8005 (-5)]) ∧
    (rt5671_dsp_ns.length = 15 ∧
    rt5671_dsp_ns.head? = some (0x22f8, 0x8005) ∧
    rt5671_dsp_ns.getLast? = some (0x22fb, 0x0000) ∧
    ((1 : Int) ≠ (sampleConsts 12).RT5671_DSP_NS →
      rt5671_dsp_set_mode (sampleConsts 12) (constCodec 0) 12 1 unitWorld =
        some (0, unitWorld)) ∧
    ((1 : Int) = (sampleConsts 12).RT5671_DSP_NS →
      ∃ (n : Nat) (rets : List Int) (r : Int) (w' : World Unit),
        n ≤ 15 ∧ rets.length = n ∧
        rt5671_dsp_set_mode (sampleConsts 12) (constCodec 0) 12 1 unitWorld = some (r, w') ∧
        writeRows (sampleConsts 12) (constCodec 0) 12 (rt5671_dsp_ns.take n) unitWorld =
          some (rets, w') ∧
        (∀ x ∈ rets.dropLast, 0 ≤ x) ∧
        ((n = 15 ∧ (∀ x ∈ rets, 0 ≤ x) ∧ r = 0) ∨
         (rets.getLast? = some r ∧ r < 0)))) :=
  ⟨by decide, by decide, by decide,
   rt5671_dsp_set_mode_spec (sampleConsts 12) (constCodec 0) 12 1 unitWorld (by decide)⟩

end SetMode

/-! ## `rt5671_dsp_read` -/

section Read

variable {σ : Type}

theorem ite_some_of_eq {α : Type} (p : Prop) [Decidable p] (a b : α) (o : Option α)
    (h : o = some b) : (if p then some a else o) = some (if p then a else b) := by
  subst h
  split_ifs <;> rfl

theorem toUInt32_toInt32_of_lt (n : Nat) (h : n < 4294967296) :
    toUInt32 (toInt32 (n : Int)) = n := by
  unfold toUInt32 toInt32
  omega

theorem snd_soc_read_lt (c : Codec σ) (w : World σ) (reg : Nat) :
    (snd_soc_read c w reg).1 < 4294967296 := by
  simp only [snd_soc_read]
  omega

/-- With twelve units of fuel `rt5671_dsp_read` returns: the cascade of its
eleven steps, with the polls as total functions. -/
theorem dsp_read_eq (k : Consts) (c : Codec σ) (fuel reg : Nat) (w : World σ)
    (hfuel : 12 ≤ fuel) :
    rt5671_dsp_read k c fuel reg w =
      some (
        let cmdMR := k.RT5671_DSP_I2C_AL_16 ||| k.RT5671_DSP_DL_0 ||| k.RT5671_DSP_RW_MASK |||
          k.RT5671_DSP_CMD_MR ||| DSP_CLK_RATE k ||| k.RT5671_DSP_CMD_EN
        let cmdRR := k.RT5671_DSP_DL_1 ||| k.RT5671_DSP_CMD_RR ||| k.RT5671_DSP_RW_MASK |||
          DSP_CLK_RATE k ||| k.RT5671_DSP_CMD_EN
        let d1 := poll k c w
        if d1.1 < 0 then (toUInt32 d1.1, d1.2) else
        let a1 := snd_soc_write c d1.2 k.RT5671_DSP_CTRL2 reg
        if a1.1 < 0 then (toUInt32 a1.1, a1.2) else
        let c1 := snd_soc_write c a1.2 k.RT5671_DSP_CTRL1 cmdMR
        if c1.1 < 0 then (toUInt32 c1.1, c1.2) else
        let d2 := poll k c c1.2
        if d2.1 < 0 then (toUInt32 d2.1, d2.2) else
        let a2 := snd_soc_write c d2.2 k.RT5671_DSP_CTRL2 0x26
        if a2.1 < 0 then (toUInt32 a2.1, a2.2) else
        let c2 := snd_soc_write c a2.2 k.RT5671_DSP_CTRL1 cmdRR
        if c2.1 < 0 then (toUInt32 c2.1, c2.2) else
        let d3 := poll k c c2.2
        if d3.1 < 0 then (toUInt32 d3.1, d3.2) else
        let a3 := snd_soc_write c d3.2 k.RT5671_DSP_CTRL2 0x25
        if a3.1 < 0 then (toUInt32 a3.1, a3.2) else
        let c3 := snd_soc_write c a3.2 k.RT5671_DSP_CTRL1 cmdRR
        if c3.1 < 0 then (toUInt32 c3.1, c3.2) else
        let d4 := poll k c c3.2
        if d4.1 < 0 then (toUInt32 d4.1, d4.2) else
        let rr := snd_soc_read c d4.2 k.RT5671_DSP_CTRL5
        (rr.1, rr.2)) := by
  simp only [rt5671_dsp_read, done_eq_poll k c fuel _ hfuel, Option.some_bind,
    toUInt32_toInt32_of_lt _ (snd_soc_read_lt c _ _), ite_self]
  repeat (first | rfl | apply ite_some_of_eq)

/-- Every poll makes at least one and at most twelve reads of the
command/status register, and nothing else. -/
theorem poll_trace (k : Consts) (c : Codec σ) (w : World σ) :
    ∃ n, 1 ≤ n ∧ n ≤ 12 ∧
      (poll k c w).2.trace = w.trace ++ readEvents c k.RT5671_DSP_CTRL1 w.st 0 n := by
  have hst : (snd_soc_read c w k.RT5671_DSP_CTRL1).2.st =
      stAfterReads c k.RT5671_DSP_CTRL1 (0 + 1) w.st := by
    simp [snd_soc_read, stAfterReads]
  have hv : (snd_soc_read c w k.RT5671_DSP_CTRL1).1 =
      nthRead c k.RT5671_DSP_CTRL1 w.st 0 := by
    simp [snd_soc_read, nthRead, stAfterReads]
  obtain ⟨n, hn, _, h2, _, _⟩ := pollFrom_spec k c w.st 11 0 _ _ hst hv
  refine ⟨n + 1, by omega, by omega, ?_⟩
  show (pollFrom k c 11 (snd_soc_read c w k.RT5671_DSP_CTRL1).1
      (snd_soc_read c w k.RT5671_DSP_CTRL1).2).2.trace = _
  rw [h2]
  simp [snd_soc_read, readEvents, List.range'_succ, nthRead, stAfterReads]

/-- C7 (amended). For every device state and every `reg`, `rt5671_dsp_read`
starts with a busy poll, which makes at least one read of the command/status
register; every step that yields a negative code (poll or write) ends the
function in the state reached by that step, with no further access; each of
the three writes to `RT5671_DSP_CTRL1` that does not yield a negative code is
immediately followed by a busy poll; and `RT5671_DSP_CTRL5` is read only as
the last step, after the fourth poll succeeded, the address register having
been written with `reg`, then `0x26`, then `0x25`. -/
theorem rt5671_dsp_read_steps (k : Consts) (c : Codec σ) (fuel reg : Nat) (w : World σ)
    (hfuel : 12 ≤ fuel) :
    let cmdMR := k.RT5671_DSP_I2C_AL_16 ||| k.RT5671_DSP_DL_0 ||| k.RT5671_DSP_RW_MASK |||
      k.RT5671_DSP_CMD_MR ||| DSP_CLK_RATE k ||| k.RT5671_DSP_CMD_EN
    let cmdRR := k.RT5671_DSP_DL_1 ||| k.RT5671_DSP_CMD_RR ||| k.RT5671_DSP_RW_MASK |||
      DSP_CLK_RATE k ||| k.RT5671_DSP_CMD_EN
    ∃ d1, rt5671_dsp_done k c fuel w = some d1 ∧
    (∃ n, 1 ≤ n ∧ n ≤ 12 ∧
      d1.2.trace = w.trace ++ readEvents c k.RT5671_DSP_CTRL1 w.st 0 n) ∧
    (d1.1 < 0 → rt5671_dsp_read k c fuel reg w = some (toUInt32 d1.1, d1.2)) ∧
    (0 ≤ d1.1 →
    let a1 := snd_soc_write c d1.2 k.RT5671_DSP_CTRL2 reg
    (a1.1 < 0 → rt5671_dsp_read k c fuel reg w = some (toUInt32 a1.1, a1.2)) ∧
    (0 ≤ a1.1 →
    let c1 := snd_soc_write c a1.2 k.RT5671_DSP_CTRL1 cmdMR
    (c1.1 < 0 → rt5671_dsp_read k c fuel reg w = some (toUInt32 c1.1, c1.2)) ∧
    (0 ≤ c1.1 →
    ∃ d2, rt5671_dsp_done k c fuel c1.2 = some d2 ∧
    (d2.1 < 0 → rt5671_dsp_read k c fuel reg w = some (toUInt32 d2.1, d2.2)) ∧
    (0 ≤ d2.1 →
    let a2 := snd_soc_write c d2.2 k.RT5671_DSP_CTRL2 0x26
    (a2.1 < 0 → rt5671_dsp_read k c fuel reg w = some (toUInt32 a2.1, a2.2)) ∧
    (0 ≤ a2.1 →
    let c2 := snd_soc_write c a2.2 k.RT5671_DSP_CTRL1 cmdRR
    (c2.1 < 0 → rt5671_dsp_read k c fuel reg w = some (toUInt32 c2.1, c2.2)) ∧
    (0 ≤ c2.1 →
    ∃ d3, rt5671_dsp_done k c fuel c2.2 = some d3 ∧
    (d3.1 < 0 → rt5671_dsp_read k c fuel reg w = some (toUInt32 d3.1, d3.2)) ∧
    (0 ≤ d3.1 →
    let a3 := snd_soc_write c d3.2 k.RT5671_DSP_CTRL2 0x25
    (a3.1 < 0 → rt5671_dsp_read k c fuel reg w = some (toUInt32 a3.1, a3.2)) ∧
    (0 ≤ a3.1 →
    let c3 := snd_soc_write c a3.2 k.RT5671_DSP_CTRL1 cmdRR
    (c3.1 < 0 → rt5671_dsp_read k c fuel reg w = some (toUInt32 c3.1, c3.2)) ∧
    (0 ≤ c3.1 →
    ∃ d4, rt5671_dsp_done k c fuel c3.2 = some d4 ∧
    (d4.1 < 0 → rt5671_dsp_read k c fuel reg w = some (toUInt32 d4.1, d4.2)) ∧
    (0 ≤ d4.1 →
    let rr := snd_soc_read c d4.2 k.RT5671_DSP_CTRL5
    rt5671_dsp_read k c fuel reg w = some (rr.1, rr.2) ∧
    rr.2.trace = d4.2.trace ++ [Access.rd k.RT5671_DSP_CTRL5 rr.1])))))))))) := by
  have hr := dsp_read_eq k c fuel reg w hfuel
  simp only [] at hr
  dsimp only
  refine ⟨poll k c w, done_eq_poll k c fuel w hfuel, poll_trace k c w, ?_, ?_⟩
  · intro h; rw [hr, if_pos h]
  intro h1; rw [if_neg (not_lt.mpr h1)] at hr
  refine ⟨?_, ?_⟩
  · intro h; rw [hr, if_pos h]
  intro h2; rw [if_neg (not_lt.mpr h2)] at hr
  refine ⟨?_, ?_⟩
  · intro h; rw [hr, if_pos h]
  intro h3; rw [if_neg (not_lt.mpr h3)] at hr
  refine ⟨poll k c _, done_eq_poll k c fuel _ hfuel, ?_, ?_⟩
  · intro h; rw [hr, if_pos h]
  intro h4; rw [if_neg (not_lt.mpr h4)] at hr
  refine ⟨?_, ?_⟩
  · intro h; rw [hr, if_pos h]
  intro h5; rw [if_neg (not_lt.mpr h5)] at hr
  refine ⟨?_, ?_⟩
  · intro h; rw [hr, if_pos h]
  intro h6; rw [if_neg (not_lt.mpr h6)] at hr
  refine ⟨poll k c _, done_eq_poll k c fuel _ hfuel, ?_, ?_⟩
  · intro h; rw [hr, if_pos h]
  intro h7; rw [if_neg (not_lt.mpr h7)] at hr
  refine ⟨?_, ?_⟩
  · intro h; rw [hr, if_pos h]
  intro h8; rw [if_neg (not_lt.mpr h8)] at hr
  refine ⟨?_, ?_⟩
  · intro h; rw [hr, if_pos h]
  intro h9; rw [if_neg (not_lt.mpr h9)] at hr
  refine ⟨poll k c _, done_eq_poll k c fuel _ hfuel, ?_, ?_⟩
  · intro h; rw [hr, if_pos h]
  intro h10; rw [if_neg (not_lt.mpr h10)] at hr
  exact ⟨hr, rfl⟩

/-- Witness of C7 (amended): a read of DSP register `0x22f8` on an idle device
whose registers all hold `0x8005`; all eleven steps are made, in order. -/
theorem rt5671_dsp_read_steps_witness :
    12 ≤ 12 ∧
    (rt5671_dsp_read (sampleConsts 12) (constCodec 0x8005) 12 0x22f8 unitWorld).map
        (fun r => (r.1, r.2.trace)) =
      some (0x8005,
        [Access.rd 0xe0 0x8005, Access.wr 0xe1 0x22f8 0, Access.wr 0xe0 0x37d3 0,
         Access.rd 0xe0 0x8005, Access.wr 0xe1 0x26 0, Access.wr 0xe0 0x60d5 0,
         Access.rd 0xe0 0x8005, Access.wr 0xe1 0x25 0, Access.wr 0xe0 0x60d5 0,
         Access.rd 0xe0 0x8005, Access.rd 0xe4 0x8005]) ∧
    (let cmdMR := (sampleConsts 12).RT5671_DSP_I2C_AL_16 ||| (sampleConsts 12).RT5671_DSP_DL_0 ||| (sampleConsts 12).RT5671_DSP_RW_MASK |||
      (sampleConsts 12).RT5671_DSP_CMD_MR ||| DSP_CLK_RATE (sampleConsts 12) ||| (sampleConsts 12).RT5671_DSP_CMD_EN
    let cmdRR := (sampleConsts 12).RT5671_DSP_DL_1 ||| (sampleConsts 12).RT5671_DSP_CMD_RR ||| (sampleConsts 12).RT5671_DSP_RW_MASK |||
      DSP_CLK_RATE (sampleConsts 12) ||| (sampleConsts 12).RT5671_DSP_CMD_EN
    ∃ d1, rt5671_dsp_done (sampleConsts 12) (constCodec 0x8005) 12 unitWorld = some d1 ∧
    (∃ n, 1 ≤ n ∧ n ≤ 12 ∧
      d1.2.trace = unitWorld.trace ++ readEvents (constCodec 0x8005) (sampleConsts 12).RT5671_DSP_CTRL1 unitWorld.st 0 n) ∧
    (d1.1 < 0 → rt5671_dsp_read (sampleConsts 12) (constCodec 0x8005) 12 0x22f8 unitWorld = some (toUInt32 d1.1, d1.2)) ∧
    (0 ≤ d1.1 →
    let a1 := snd_soc_write (constCodec 0x8005) d1.2 (sampleConsts 12).RT5671_DSP_CTRL2 0x22f8
    (a1.1 < 0 → rt5671_dsp_read (sampleConsts 12) (constCodec 0x8005) 12 0x22f8 unitWorld = some (toUInt32 a1.1, a1.2)) ∧
    (0 ≤ a1.1 →
    let c1 := snd_soc_write (constCodec 0x8005) a1.2 (sampleConsts 12).RT5671_DSP_CTRL1 cmdMR
    (c1.1 < 0 → rt5671_dsp_read (sampleConsts 12) (constCodec 0x8005) 12 0x22f8 unitWorld = some (toUInt32 c1.1, c1.2)) ∧
    (0 ≤ c1.1 →
    ∃ d2, rt5671_dsp_done (sampleConsts 12) (constCodec 0x8005) 12 c1.2 = some d2 ∧
    (d2.1 < 0 → rt5671_dsp_read (sampleConsts 12) (constCodec 0x8005) 12 0x22f8 unitWorld = some (toUInt32 d2.1, d2.2)) ∧
    (0 ≤ d2.1 →
    let a2 := snd_soc_write (constCodec 0x8005) d2.2 (sampleConsts 12).RT5671_DSP_CTRL2 0x26
    (a2.1 < 0 → rt5671_dsp_read (sampleConsts 12) (constCodec 0x8005) 12 0x22f8 unitWorld = some (toUInt32 a2.1, a2.2)) ∧
    (0 ≤ a2.1 →
    let c2 := snd_soc_write (constCodec 0x8005) a2.2 (sampleConsts 12).RT5671_DSP_CTRL1 cmdRR
    (c2.1 < 0 → rt5671_dsp_read (sampleConsts 12) (constCodec 0x8005) 12 0x22f8 unitWorld = some (toUInt32 c2.1, c2.2)) ∧
    (0 ≤ c2.1 →
    ∃ d3, rt5671_dsp_done (sampleConsts 12) (constCodec 0x8005) 12 c2.2 = some d3 ∧
    (d3.1 < 0 → rt5671_dsp_read (sampleConsts 12) (constCodec 0x8005) 12 0x22f8 unitWorld = some (toUInt32 d3.1, d3.2)) ∧
    (0 ≤ d3.1 →
    let a3 := snd_soc_write (constCodec 0x8005) d3.2 (sampleConsts 12).RT5671_DSP_CTRL2 0x25
    (a3.1 < 0 → rt5671_dsp_read (sampleConsts 12) (constCodec 0x8005) 12 0x22f8 unitWorld = some (toUInt32 a3.1, a3.2)) ∧
    (0 ≤ a3.1 →
    let c3 := snd_soc_write (constCodec 0x8005) a3.2 (sampleConsts 12).RT5671_DSP_CTRL1 cmdRR
    (c3.1 < 0 → rt5671_dsp_read (sampleConsts 12) (constCodec 0x8005) 12 0x22f8 unitWorld = some (toUInt32 c3.1, c3.2)) ∧
    (0 ≤ c3.1 →
    ∃ d4, rt5671_dsp_done (sampleConsts 12) (constCodec 0x8005) 12 c3.2 = some d4 ∧
    (d4.1 < 0 → rt5671_dsp_read (sampleConsts 12) (constCodec 0x8005) 12 0x22f8 unitWorld = some (toUInt32 d4.1, d4.2)) ∧
    (0 ≤ d4.1 →
    let rr := snd_soc_read (constCodec 0x8005) d4.2 (sampleConsts 12).RT5671_DSP_CTRL5
    rt5671_dsp_read (sampleConsts 12) (constCodec 0x8005) 12 0x22f8 unitWorld = some (rr.1, rr.2) ∧
    rr.2.trace = d4.2.trace ++ [Access.rd (sampleConsts 12).RT5671_DSP_CTRL5 rr.1]))))))))))) :=
  ⟨by decide, by decide,
   rt5671_dsp_read_steps (sampleConsts 12) (constCodec 0x8005) 12 0x22f8 unitWorld
     (by decide)⟩

/-- C7 (as stated) fails: on a device that rejects the write to the command
register `RT5671_DSP_CTRL1` (here with status -5), `rt5671_dsp_read` makes
that write and returns at once; the write is the last access of the run and
no busy poll follows it. -/
theorem rt5671_dsp_read_cmd_write_without_poll :
    (rt5671_dsp_read (sampleConsts 12) (nakCodec 0xe0 (-5)) 12 0x22f8 unitWorld).map
        (fun r => (r.1, r.2.trace)) =
      some (4294967291,
        [Access.rd 0xe0 0, Access.wr 0xe1 0x22f8 0, Access.wr 0xe0 0x37d3 (-5)]) ∧
    ∃ r, rt5671_dsp_read (sampleConsts 12) (nakCodec 0xe0 (-5)) 12 0x22f8 unitWorld = some r ∧
      ∃ (i val : Nat) (ret : Int),
        r.2.trace[i]? = some (Access.wr (sampleConsts 12).RT5671_DSP_CTRL1 val ret) ∧
        r.2.trace[i + 1]? = none :=
  ⟨by decide,
   _, dsp_read_eq (sampleConsts 12) (nakCodec 0xe0 (-5)) 12 0x22f8 unitWorld (by decide),
   2, 0x37d3, -5, by decide, by decide⟩

/-- C3 (failing input). On a device whose DSP stays busy, the first poll of
`rt5671_dsp_read` times out after twelve reads and the function returns
`-EBUSY` converted to `unsigned int`: the number 4294967280, which is not
negative and so cannot be told from a register value by testing `< 0`.
Likewise a write rejected with status -5 makes the result 4294967291. -/
theorem rt5671_dsp_read_busy_not_negative :
    (rt5671_dsp_read (sampleConsts 12) (constCodec 0x20) 12 0x22f8 unitWorld).map
        (fun r => (r.1, decide ((r.1 : Int) < 0), r.2.trace.length)) =
      some (4294967280, false, 12) ∧
    toUInt32 (-((sampleConsts 12).EBUSY : Int)) = 4294967280 ∧
    (rt5671_dsp_read (sampleConsts 12) (nakCodec 0xe1 (-5)) 12 0x22f8 unitWorld).map
        (fun r => (r.1, decide ((r.1 : Int) < 0), r.2.trace.length)) =
      some (4294967291, false, 2) := by
  decide

end Read

/-! ## `rt5671_dsp_show` -/

section Show

variable {σ : Type}

theorem digitChar_ne_NUL : ∀ d, d < 16 → Nat.digitChar d ≠ NUL := by
  decide

theorem toDigitsCore_no_NUL :
    ∀ (f n : Nat) (acc : List Char), NUL ∉ acc → NUL ∉ Nat.toDigitsCore 16 f n acc := by
  intro f
  induction f with
  | zero => intro n acc h; simpa [Nat.toDigitsCore] using h
  | succ f ih =>
    intro n acc h
    have hacc : NUL ∉ Nat.digitChar (n % 16) :: acc := by
      intro hm
      rcases List.mem_cons.mp hm with h1 | h1
      · exact digitChar_ne_NUL _ (Nat.mod_lt _ (by decide)) h1.symm
      · exact h h1
    simp only [Nat.toDigitsCore]
    split_ifs
    · exact hacc
    · exact ih _ _ hacc

theorem fmt04x_no_NUL (v : Nat) : NUL ∉ fmt04x v := by
  unfold fmt04x
  intro hm
  rcases List.mem_append.mp hm with h | h
  · have := (List.mem_replicate.mp h).2
    revert this
    decide
  · exact toDigitsCore_no_NUL _ _ [] (by simp) h

theorem fmt04x_length_le (v : Nat) : (fmt04x v).length ≤ 8 := by
  have h := Nat.toDigitsCore_length 16 (by decide) (v % 4294967296 + 1) (v % 4294967296) 8
    (by norm_num; omega) (by decide)
  unfold fmt04x
  simp only [List.length_append, List.length_replicate]
  unfold Nat.toDigits
  omega

theorem fmt04x_length_of_lt (a : Nat) (ha : a < 65536) : (fmt04x a).length = 4 := by
  have e : a % 4294967296 = a := Nat.mod_eq_of_lt (by omega)
  have h := Nat.toDigitsCore_length 16 (by decide) (a + 1) a 4 (by norm_num; omega) (by decide)
  unfold fmt04x
  simp only [List.length_append, List.length_replicate, e]
  unfold Nat.toDigits
  omega

theorem fmtRegLine_no_NUL (a v : Nat) : NUL ∉ fmtRegLine a v := by
  unfold fmtRegLine
  intro hm
  simp only [List.mem_append, List.mem_cons, List.mem_singleton, List.not_mem_nil, or_false]
    at hm
  rcases hm with ((h | h | h) | h) | h
  · exact fmt04x_no_NUL a h
  · revert h; decide
  · revert h; decide
  · exact fmt04x_no_NUL v h
  · revert h; decide

theorem fmtRegLine_length_le (a v : Nat) (ha : a < 65536) : (fmtRegLine a v).length ≤ 15 := by
  have h1 := fmt04x_length_of_lt a ha
  have h2 := fmt04x_length_le v
  unfold fmtRegLine
  simp only [List.length_append, List.length_cons, List.length_nil]
  omega

/-- Appending a NUL-terminated `line` right behind the text already in the
buffer yields a buffer holding the concatenation. -/
theorem holds_after_write (buf : Buf) (text line : List Char)
    (hno : NUL ∉ text) (hpre : ∀ i, i < text.length → buf i = text.getD i NUL)
    (hline : NUL ∉ line) :
    HoldsCString (bufWrite buf text.length (line ++ [NUL])) (text ++ line) := by
  refine ⟨?_, ?_, ?_⟩
  · intro hm
    rcases List.mem_append.mp hm with h | h
    · exact hno h
    · exact hline h
  · intro i hi
    rw [List.length_append] at hi
    by_cases h : i < text.length
    · have : ¬ (text.length ≤ i ∧ i < text.length + (line ++ [NUL]).length) := by omega
      simp only [bufWrite, this, if_false]
      rw [List.getD_append _ _ _ _ h]
      exact hpre i h
    · have hin : text.length ≤ i ∧ i < text.length + (line ++ [NUL]).length := by
        simp only [List.length_append, List.length_singleton]; omega
      simp only [bufWrite, hin, and_self, if_true]
      rw [List.getD_append_right text line NUL i (by omega),
        List.getD_append line [NUL] NUL (i - text.length) (by omega)]
  · have hin : text.length ≤ (text ++ line).length ∧
        (text ++ line).length < text.length + (line ++ [NUL]).length := by
      simp only [List.length_append, List.length_singleton]; omega
    simp only [bufWrite, hin, and_self, if_true]
    rw [List.getD_append_right line [NUL] NUL ((text ++ line).length - text.length) (by simp)]
    simp

/-- The call `snprintf(buf + cnt, size, ...)` behind a held text, for a line
that fits into `size`. -/
theorem holds_after_snprintf (buf : Buf) (text line : List Char) (size : Nat)
    (h : HoldsCString buf text) (hline : NUL ∉ line) (hfit : line.length + 1 ≤ size) :
    (snprintf buf text.length size line).1 = line.length ∧
    HoldsCString (snprintf buf text.length size line).2 (text ++ line) := by
  refine ⟨rfl, ?_⟩
  have hs : ¬ size = 0 := by omega
  have ht : line.take (size - 1) = line := List.take_of_length_le (by omega)
  simp only [snprintf, hs, if_false, ht]
  exact holds_after_write buf text line h.1 h.2.1 hline

theorem dsp_read_total (k : Consts) (c : Codec σ) (fuel reg : Nat) (w : World σ)
    (hfuel : 12 ≤ fuel) : ∃ r, rt5671_dsp_read k c fuel reg w = some r :=
  ⟨_, dsp_read_eq k c fuel reg w hfuel⟩

theorem show_loop_spec (k : Consts) (c : Codec σ) (fuel : Nat) (hfuel : 12 ≤ fuel)
    (hlen : 16 ≤ k.RT5671_DSP_REG_DISP_LEN) :
    ∀ (rows : List (Nat × Nat)) (cnt : Nat) (buf : Buf) (w : World σ) (text : List Char),
      (∀ row ∈ rows, row.1 < 65536) → HoldsCString buf text → text.length = cnt →
      cnt < k.PAGE_SIZE →
      ∃ (cnt' : Nat) (buf' : Buf) (w' : World σ) (lines : List (Nat × Nat)),
        rt5671_dsp_show_loop k c fuel rows cnt buf w = some (cnt', buf', w') ∧
        HoldsCString buf' (text ++ linesText lines) ∧
        cnt' = (text ++ linesText lines).length ∧ cnt' < k.PAGE_SIZE := by
  intro rows
  induction rows with
  | nil =>
    intro cnt buf w text _ hh hc hp
    exact ⟨cnt, buf, w, [], rfl, by simpa [linesText] using hh, by simp [linesText, hc], hp⟩
  | cons row rest ih =>
    intro cnt buf w text hrows hh hc hp
    by_cases hbrk : cnt + k.RT5671_DSP_REG_DISP_LEN ≥ k.PAGE_SIZE
    · refine ⟨cnt, buf, w, [], ?_, by simpa [linesText] using hh, by simp [linesText, hc], hp⟩
      simp [rt5671_dsp_show_loop, hbrk]
    · obtain ⟨r, hr⟩ := dsp_read_total k c fuel row.1 w hfuel
      have hrow : row.1 < 65536 := hrows row (List.mem_cons_self _ _)
      have hl := fmtRegLine_length_le row.1 r.1 hrow
      obtain ⟨hs1, hs2⟩ := holds_after_snprintf buf text (fmtRegLine row.1 r.1)
        k.RT5671_DSP_REG_DISP_LEN hh (fmtRegLine_no_NUL _ _) (by omega)
      rw [hc] at hs1 hs2
      obtain ⟨cnt', buf', w', lines, h1, h2, h3, h4⟩ :=
        ih (cnt + (fmtRegLine row.1 r.1).length) _ r.2 (text ++ fmtRegLine row.1 r.1)
          (fun x hx => hrows x (List.mem_cons_of_mem _ hx)) hs2
          (by simp [hc]) (by omega)
      refine ⟨cnt', buf', w', (row.1, r.1) :: lines, ?_, ?_, ?_, h4⟩
      · simp only [rt5671_dsp_show_loop, hbrk, if_false, hr, Option.some_bind, hs1]
        exact h1
      · simpa [linesText, List.append_assoc] using h2
      · simpa [linesText, List.append_assoc] using h3

theorem linesText_append (a b : List (Nat × Nat)) :
    linesText (a ++ b) = linesText a ++ linesText b := by
  induction a with
  | nil => rfl
  | cons x xs ih => simp [linesText, ih, List.append_assoc]

theorem show_done_of_lt (k : Consts) (cnt : Nat) (h : cnt < k.PAGE_SIZE) :
    rt5671_dsp_show_done k cnt = cnt := by
  unfold rt5671_dsp_show_done
  rw [if_neg (by omega)]

/-- C5. For every `dsp_sw` setting, every device state and every outcome of the
DSP reads (error values wider than 16 bits included), `rt5671_dsp_show`
returns, and the count returned is the number of characters it stored: `buf`
holds one NUL-terminated string of exactly that length, made of the header
followed by whole register lines, with no gap and no cut line. The constants
`RT5671_DSP_REG_DISP_LEN` and `PAGE_SIZE` come from headers outside the
sources; the statement is for a line size of at least 16 (a line has at most
15 characters) and a page longer than the 13 characters of the header. -/
theorem rt5671_dsp_show_count (k : Consts) (c : Codec σ) (fuel : Nat) (dsp_sw : Int)
    (buf : Buf) (w : World σ) (hfuel : 12 ≤ fuel)
    (hlen : 16 ≤ k.RT5671_DSP_REG_DISP_LEN) (hpage : 13 < k.PAGE_SIZE) :
    ∃ (cnt : Nat) (buf' : Buf) (w' : World σ) (lines : List (Nat × Nat)),
      rt5671_dsp_show k c fuel dsp_sw buf w = some (cnt, buf', w') ∧
      HoldsCString buf'
        ((if dsp_sw = k.RT5671_DSP_NS then hdrNS else hdrDisabled) ++ linesText lines) ∧
      cnt = ((if dsp_sw = k.RT5671_DSP_NS then hdrNS else hdrDisabled) ++
        linesText lines).length := by
  by_cases hm : dsp_sw = k.RT5671_DSP_NS
  · have h0 : HoldsCString (sprintf buf 0 hdrNS).2 hdrNS :=
      holds_after_write buf [] hdrNS (by simp) (by simp) (by decide)
    have htake : rt5671_dsp_ns.take RT5671_DSP_NS_NUM = rt5671_dsp_ns := List.take_length _
    obtain ⟨cnt1, buf1, w1, lines1, h1, h2, h3, h4⟩ :=
      show_loop_spec k c fuel hfuel hlen rt5671_dsp_ns (0 + (sprintf buf 0 hdrNS).1)
        (sprintf buf 0 hdrNS).2 w hdrNS (by decide) h0 rfl
        (by show 0 + 13 < k.PAGE_SIZE; omega)
    by_cases hroom : cnt1 + k.RT5671_DSP_REG_DISP_LEN < k.PAGE_SIZE
    · obtain ⟨r, hr⟩ := dsp_read_total k c fuel 0x3fb5 w1 hfuel
      have hl := fmtRegLine_length_le 0x3fb5 r.1 (by decide)
      obtain ⟨hs1, hs2⟩ := holds_after_snprintf buf1 (hdrNS ++ linesText lines1)
        (fmtRegLine 0x3fb5 r.1) k.RT5671_DSP_REG_DISP_LEN h2 (fmtRegLine_no_NUL _ _)
        (by omega)
      rw [← h3] at hs1 hs2
      refine ⟨cnt1 + (fmtRegLine 0x3fb5 r.1).length,
        (snprintf buf1 cnt1 k.RT5671_DSP_REG_DISP_LEN (fmtRegLine 0x3fb5 r.1)).2, r.2,
        lines1 ++ [(0x3fb5, r.1)], ?_, ?_, ?_⟩
      · simp only [rt5671_dsp_show, hm, if_true, htake, h1, Option.some_bind, hroom, hr, hs1]
        rw [show_done_of_lt k _ (by omega)]
      · rw [if_pos hm, linesText_append]
        simpa [linesText, List.append_assoc] using hs2
      · rw [if_pos hm, linesText_append]
        simp [linesText, h3, List.append_assoc]
        omega
    · refine ⟨cnt1, buf1, w1, lines1, ?_, by rw [if_pos hm]; exact h2,
        by rw [if_pos hm]; exact h3⟩
      simp only [rt5671_dsp_show, hm, if_true, htake, h1, Option.some_bind, hroom, if_false]
      rw [show_done_of_lt k _ h4]
  · have h0 : HoldsCString (sprintf buf 0 hdrDisabled).2 hdrDisabled :=
      holds_after_write buf [] hdrDisabled (by simp) (by simp) (by decide)
    refine ⟨13, (sprintf buf 0 hdrDisabled).2, w, [], ?_, ?_, ?_⟩
    · simp only [rt5671_dsp_show, hm, if_false]
      rw [show_done_of_lt k _ (by show 0 + 13 < k.PAGE_SIZE; omega)]
      rfl
    · rw [if_neg hm]
      simpa [linesText] using h0
    · rw [if_neg hm]
      rfl

/-- Witness of C5: line size 25, DSP mode NS, a device whose DSP stays busy so
that every read yields the 32-bit error value `fffffff0`; all 16 lines are
stored whole and the count is 13 + 16 * 15 = 253. -/
theorem rt5671_dsp_show_count_witness :
    12 ≤ 12 ∧ 16 ≤ (sampleConsts 25).RT5671_DSP_REG_DISP_LEN ∧
    13 < (sampleConsts 25).PAGE_SIZE ∧
    (rt5671_dsp_show (sampleConsts 25) (constCodec 0x20) 12 1 zeroPage unitWorld).map
        (fun r => (r.1, (List.range' 13 15).map r.2.1, r.2.1 253)) =
      some (253, ['2', '2', 'f', '8', ':', ' ', 'f', 'f', 'f', 'f', 'f', 'f', 'f', '0', '\n'],
        NUL) ∧
    ∃ (cnt : Nat) (buf' : Buf) (w' : World Unit) (lines : List (Nat × Nat)),
      rt5671_dsp_show (sampleConsts 25) (constCodec 0x20) 12 1 zeroPage unitWorld =
        some (cnt, buf', w') ∧
      HoldsCString buf'
        ((if (1 : Int) = (sampleConsts 25).RT5671_DSP_NS then hdrNS else hdrDisabled) ++
          linesText lines) ∧
      cnt = ((if (1 : Int) = (sampleConsts 25).RT5671_DSP_NS then hdrNS else hdrDisabled) ++
        linesText lines).length :=
  ⟨by decide, by decide, by decide, by decide,
   rt5671_dsp_show_count (sampleConsts 25) (constCodec 0x20) 12 1 zeroPage unitWorld
     (by decide) (by decide) (by decide)⟩

/-- The bound 16 on the line size cannot be lowered: for each line size from 1
to 15, on a device whose DSP stays busy every read yields the error value
`fffffff0`, the first line is cut, and the count returned (253) exceeds the
length of the string held by the buffer, which ends where that line is cut. -/
theorem show_line_size_bound_sharp :
    ∀ len, 1 ≤ len → len ≤ 15 →
      (rt5671_dsp_show (sampleConsts len) (constCodec 0x20) 12 1 zeroPage unitWorld).map
          (fun r => (r.1, r.2.1 (12 + len))) = some (253, NUL) := by
  intro len h1 h2
  interval_cases len <;> decide

/-- C6 (failing input). In mode NS, on an idle device whose registers all hold
0, the value read from DSP register `0x22f8` is 0 and `rt5671_dsp_show` still
stores the line `22f8: 0000` for it, as it does for each of the 16 registers
it reads (13 + 16 * 11 = 189 characters). -/
theorem rt5671_dsp_show_prints_zero_value :
    (rt5671_dsp_read (sampleConsts 12) (constCodec 0) 12 0x22f8 unitWorld).map Prod.fst =
      some 0 ∧
    (rt5671_dsp_show (sampleConsts 12) (constCodec 0) 12 1 zeroPage unitWorld).map
        (fun r => (r.1, (List.range 24).map r.2.1)) =
      some (189, hdrNS ++ ['2', '2', 'f', '8', ':', ' ', '0', '0', '0', '0', '\n']) := by
  decide

end Show

end RT5671
